import Mathlib

/-!
Verification development for the fature-config-service repository.

The development shallowly embeds the configuration store
(`src/models/configModel.js`), the service facade with its cache and
subscriber registry (`src/services/configService.js`), and the dynamic
schema-to-validator compiler (`convertToJoiSchema` / `convertPropertyToJoi`
plus the behaviour of the `joi` library under its default options), and
proves the spec-level properties about them.

Conventions: JavaScript `undefined`/`null` are modelled as `Option.none`;
JSON numbers are modelled as `Int` (all claims only involve integral
numbers); timestamps are `Nat`; the database table is a list of rows;
a thrown JS error is an `Except.error`.
-/

/-- A JSON-like JavaScript value (the type of `config_value` and of the
values submitted to validation).  Object fields are an ordered association
list, mirroring JS object property order. -/
inductive JsVal where
  | num (n : Int)
  | str (s : String)
  | bool (b : Bool)
  | arr (elems : List JsVal)
  | obj (fields : List (String × JsVal))

/-- Declarative shape description, the JSON-schema-like object accepted by
`convertToJoiSchema`.  Each field mirrors the property the JS code reads:
`ty` is `schema.type`, `properties` the (possibly absent, here: empty)
property map, `requiredList` the `required` array (`none` when absent,
because the JS code only tests its truthiness), `enumList` the `enum`
array, `minimum`/`maximum` the numeric bounds (present iff not
`undefined`), `items` the array item shape. -/
inductive ShapeDesc where
  | mk (ty : Option String)
       (properties : List (String × ShapeDesc))
       (requiredList : Option (List String))
       (enumList : Option (List String))
       (minimum : Option Int)
       (maximum : Option Int)
       (items : Option ShapeDesc)

/-- A compiled joi schema, i.e. the executable validator produced by
`convertToJoiSchema`.  The `required` flag on `obj` records a `.required()`
call on the object schema (the only place the JS code ever applies
`.required()`). -/
inductive JoiSchema where
  | str (allowed : Option (List String))
  | num (minimum : Option Int) (maximum : Option Int)
  | bool
  | arr (items : Option JoiSchema)
  | obj (keys : List (String × JoiSchema)) (required : Bool)
  | any

mutual

/-- Embedding of `ConfigService.convertPropertyToJoi`.  The JS `object`
case calls `convertToJoiSchema(property)`, which immediately takes its
`type === 'object'` branch on the same argument; that one-step unfolding
is inlined here so the recursion is structural. -/
def convertPropertyToJoi : ShapeDesc → JoiSchema
  | .mk ty props req en mn mx it =>
    match ty with
    | some "string" => .str en
    | some "number" => .num mn mx
    | some "boolean" => .bool
    | some "array" =>
      .arr (match it with
            | some p => some (convertPropertyToJoi p)
            | none => none)
    | some "object" => .obj (convertPropsToJoi props) req.isSome
    | _ => .any

/-- Pointwise conversion of the `properties` map (the JS `for ... of
Object.entries(jsonSchema.properties)` loop). -/
def convertPropsToJoi : List (String × ShapeDesc) → List (String × JoiSchema)
  | [] => []
  | (k, p) :: rest => (k, convertPropertyToJoi p) :: convertPropsToJoi rest

end

/-- Embedding of `ConfigService.convertToJoiSchema`: an explicit `object`
type builds `Joi.object(...)`, marked required iff the `required` field is
truthy (in JS any present array, even an empty one, is truthy); any other
shape is delegated to `convertPropertyToJoi`. -/
def convertToJoiSchema : ShapeDesc → JoiSchema
  | .mk ty props req en mn mx it =>
    if ty = some "object" then
      .obj (convertPropsToJoi props) req.isSome
    else
      convertPropertyToJoi (.mk ty props req en mn mx it)

/-- A single joi validation error: the `path` segments (joined with `.` by
the service) and a human-readable message. -/
structure JoiError where
  path : List String
  message : String

/-- Whether a compiled schema was marked `.required()` (only object
schemas ever are, in this code base). -/
def isRequiredSchema : JoiSchema → Bool
  | .obj _ req => req
  | _ => false

/-- JS object property access `fields[k]`: first binding wins (JS object
keys are unique). -/
def lookupField (fields : List (String × JsVal)) (k : String) : Option JsVal :=
  match fields.find? (fun kv => kv.1 == k) with
  | some kv => some kv.2
  | none => none

mutual

/-- Behaviour of `joiSchema.validate(value)` under joi's default options,
in particular `abortEarly: true`: the result is the FIRST validation error
in schema-declaration order (depth first), or `none` when the value is
valid.  An absent value (`undefined`) fails only a `.required()` schema.
Coercion (`convert`) is not modelled: every claim submits values already
of the target primitive type. -/
def joiFirstError (path : List String) : JoiSchema → Option JsVal → Option JoiError
  | s, none =>
    if isRequiredSchema s then some { path := path, message := "is required" }
    else none
  | .str en, some (JsVal.str x) =>
    (match en with
     | some l =>
       if l.contains x then none
       else some { path := path, message := "must be one of the allowed values" }
     | none =>
       if x = "" then some { path := path, message := "is not allowed to be empty" }
       else none)
  | .str _, some _ => some { path := path, message := "must be a string" }
  | .num mn mx, some (JsVal.num x) =>
    (match mn with
     | some m =>
       if x < m then some { path := path, message := "must be greater than or equal to the minimum" }
       else (match mx with
             | some M =>
               if M < x then some { path := path, message := "must be less than or equal to the maximum" }
               else none
             | none => none)
     | none =>
       (match mx with
        | some M =>
          if M < x then some { path := path, message := "must be less than or equal to the maximum" }
          else none
        | none => none))
  | .num _ _, some _ => some { path := path, message := "must be a number" }
  | .bool, some (JsVal.bool _) => none
  | .bool, some _ => some { path := path, message := "must be a boolean" }
  | .arr it, some (JsVal.arr xs) =>
    (match it with
     | some sub => joiCheckItems path sub 0 xs
     | none => none)
  | .arr _, some _ => some { path := path, message := "must be an array" }
  | .obj ks _, some (JsVal.obj fields) =>
    (match joiCheckKeys path fields ks with
     | some e => some e
     | none =>
       match fields.find? (fun kv => !(ks.any (fun ksch => ksch.1 == kv.1))) with
       | some kv => some { path := path ++ [kv.1], message := "is not allowed" }
       | none => none)
  | .obj _ _, some _ => some { path := path, message := "must be of type object" }
  | .any, some _ => none
termination_by s _v => (sizeOf s, 0)

/-- Validation of an object's declared keys, in schema order; absent
properties are validated as `undefined` (optional unless required). -/
def joiCheckKeys (path : List String) (fields : List (String × JsVal)) :
    List (String × JoiSchema) → Option JoiError
  | [] => none
  | (k, sub) :: rest =>
    match joiFirstError (path ++ [k]) sub (lookupField fields k) with
    | some e => some e
    | none => joiCheckKeys path fields rest
termination_by ks => (sizeOf ks, 0)

/-- Validation of array elements against the item schema, with the element
index as path segment. -/
def joiCheckItems (path : List String) (sub : JoiSchema) (idx : Nat) :
    List JsVal → Option JoiError
  | [] => none
  | x :: rest =>
    match joiFirstError (path ++ [toString idx]) sub (some x) with
    | some e => some e
    | none => joiCheckItems path sub (idx + 1) rest
termination_by xs => (sizeOf sub, xs.length + 1)

end

/-- One entry of the `errors` array built by `ConfigService.validateConfig`
(`field` is the dotted join of the joi error path). -/
structure FieldError where
  field : String
  message : String

/-- Result object of `ConfigService.validateConfig`.  The JS function
returns plain objects with differing key sets; absent keys are `none`. -/
structure ValidationResult where
  valid : Bool
  errors : Option (List FieldError)
  value : Option JsVal

/-- Embedding of `ConfigService.validateConfig(configValue,
validationSchema)`.  With no schema it returns the bare object
`valid: true` (no `value` key).  Otherwise the schema is compiled and
joi-validated; on error the details (a single entry, by `abortEarly`) are
mapped to dotted-path field errors; on success the (unconverted) value is
returned. -/
def validateConfig (configValue : Option JsVal) (validationSchema : Option ShapeDesc) :
    ValidationResult :=
  match validationSchema with
  | none => { valid := true, errors := none, value := none }
  | some sch =>
    match joiFirstError [] (convertToJoiSchema sch) configValue with
    | some e =>
      { valid := false
        errors := some [{ field := String.intercalate "." e.path, message := e.message }]
        value := none }
    | none => { valid := true, errors := none, value := configValue }

/-- Action tag of a change-history event. -/
inductive ChangeAction where
  | CREATE
  | UPDATE
  | DELETE
deriving DecidableEq

/-- One entry of the `change_log` JSONB column, as built by
`ConfigModel.addToHistory` (`changed_at` is the wall-clock instant of the
append, modelled as a `Nat`). -/
structure ChangeEvent where
  action : ChangeAction
  old_value : Option JsVal
  new_value : Option JsVal
  changed_by : Option String
  changed_at : Nat

/-- One row of the `system_configurations` table (columns from the
migration DDL; `id` is the SERIAL primary key, `version` defaults to 1,
`active` to true, `change_log` to the empty array). -/
structure ConfigRow where
  id : Nat
  config_key : String
  config_value : JsVal
  config_type : String
  config_category : String
  description : Option String
  validation_schema : Option ShapeDesc
  version : Nat
  created_by : Option String
  active : Bool
  change_log : List ChangeEvent

/-- Payload of a create call (the fields `ConfigModel.createConfig`
inserts). -/
structure ConfigData where
  config_key : String
  config_value : JsVal
  config_type : String
  config_category : String
  description : Option String
  validation_schema : Option ShapeDesc
  created_by : Option String

/-- Payload of an update call (the fields `ConfigModel.updateConfig`
reads from `updateData`). -/
structure UpdateData where
  config_value : JsVal
  description : Option String
  validation_schema : Option ShapeDesc
  updated_by : Option String

namespace ConfigModel

/-- The SERIAL id generator: strictly larger than every id in the table. -/
def nextId (t : List ConfigRow) : Nat :=
  t.foldl (fun m r => max m r.id) 0 + 1

/-- The SQL query inside `ConfigModel.getConfig`: `SELECT * ... WHERE
config_key = $1 AND active = true ORDER BY version DESC LIMIT 1` — the
highest-version active row for the key, as the pg driver hands it back,
i.e. with the jsonb columns already parsed into JS values. -/
def selectConfig (t : List ConfigRow) (configKey : String) : Option ConfigRow :=
  match t.filter (fun r => r.config_key == configKey && r.active) with
  | [] => none
  | r :: rs => some (rs.foldl (fun best x => if best.version < x.version then x else best) r)

/-- Embedding of `ConfigModel.getConfig`.  After the SELECT the JS code
runs `JSON.parse` over `config_value`, then `validation_schema` (when
present), then `change_log` (when truthy).  The pg driver (pg ^8; this
repository never overrides a type parser) has ALREADY parsed these jsonb
columns into JS values, so each `JSON.parse` receives a non-string, which
JS first coerces to a string: an object becomes `"[object Object]"`, an
array of objects becomes `""` or `"[object Object],..."` — never valid
JSON text.  `change_log` is always an array (column default `'[]'`, and
its elements are event objects), hence truthy, hence parsed, hence a
SyntaxError is thrown for EVERY found row no matter what the other
columns hold; the catch block logs and rethrows it.  No row: null. -/
def getConfig (t : List ConfigRow) (configKey : String) :
    Except String (Option ConfigRow) :=
  match selectConfig t configKey with
  | none => .ok none
  | some _ => .error "SyntaxError: JSON.parse applied to a pg-parsed jsonb value"

/-- Embedding of `ConfigModel.addToHistory`.  It never modifies the
table: when a row matches the id, `JSON.parse(rows[0].change_log)` runs
on the pg-parsed (truthy) array and throws; the surrounding try/catch
logs and swallows the error before the history UPDATE is reached.  When
no row matches the id, the guard leaves `changeLog = []` and the event is
pushed, but the `UPDATE ... WHERE id = $2` matches zero rows.  Either way
nothing is written and no error escapes — and the failure is client-side
(inside JS), so it does not abort a surrounding database transaction. -/
def addToHistory (t : List ConfigRow) (configId : Nat)
    (_action : ChangeAction) (_oldValue _newValue : Option JsVal)
    (_changedBy : Option String) (_now : Nat) : List ConfigRow :=
  match t.find? (fun r => r.id == configId) with
  | some _ => t
  | none => t

/-- Embedding of `ConfigModel.createConfig`: `INSERT` the row (version,
active and change_log take their column defaults 1 / true / []); a
second row with the same `config_key` violates the UNIQUE constraint and
the error propagates.  The CREATE-event append then runs — and, as
always, fails inside `addToHistory` and is swallowed — so the committed
row keeps its empty history.  The value returned to the caller is the
freshly inserted row as `RETURNING *` produced it; this path performs no
`JSON.parse`, so a create genuinely succeeds. -/
def createConfig (t : List ConfigRow) (d : ConfigData) (now : Nat) :
    Except String (ConfigRow × List ConfigRow) :=
  if t.any (fun r => r.config_key == d.config_key) then
    .error "duplicate key value violates unique constraint"
  else
    let row : ConfigRow :=
      { id := nextId t, config_key := d.config_key, config_value := d.config_value,
        config_type := d.config_type, config_category := d.config_category,
        description := d.description, validation_schema := d.validation_schema,
        version := 1, created_by := d.created_by, active := true, change_log := [] }
    let t2 := addToHistory (t ++ [row]) row.id .CREATE none (some d.config_value)
        d.created_by now
    .ok (row, t2)

/-- The row transformation of the `UPDATE` statement in
`ConfigModel.updateConfig`: new value, `COALESCE` on description and
validation schema, `version = version + 1`. -/
def applyUpdateRow (u : UpdateData) (r : ConfigRow) : ConfigRow :=
  { r with
    config_value := u.config_value,
    description := (match u.description with
                    | some d2 => some d2
                    | none => r.description),
    validation_schema := (match u.validation_schema with
                          | some v2 => some v2
                          | none => r.validation_schema),
    version := r.version + 1 }

/-- Embedding of `ConfigModel.updateConfig`: inside BEGIN..COMMIT, the
first step is `this.getConfig(configKey)`, which throws for every
existing row (see `getConfig`) and yields null when no active row
exists, in which case 'Configuração não encontrada' is thrown.  Either
way every call takes the catch branch, issues ROLLBACK and rethrows with
the table untouched; the success path below, transcribed from the
source, is unreachable (a theorem below proves it). -/
def updateConfig (t : List ConfigRow) (configKey : String)
    (u : UpdateData) (now : Nat) : Except String (ConfigRow × List ConfigRow) :=
  match getConfig t configKey with
  | .error e => .error e
  | .ok none => .error "Configuração não encontrada"
  | .ok (some currentConfig) =>
    let t2 := t.map (fun r =>
      if r.config_key == configKey && r.active then applyUpdateRow u r else r)
    match (t.filter (fun r => r.config_key == configKey && r.active)).head? with
    | none => .error "cannot read property of undefined"
    | some r0 =>
      let updated := applyUpdateRow u r0
      let t3 := addToHistory t2 updated.id .UPDATE
          (some currentConfig.config_value) (some u.config_value) u.updated_by now
      .ok (updated, t3)

/-- Embedding of `ConfigModel.deleteConfig`: same shape as update — the
initial `this.getConfig` read throws (row exists) or yields null (no
row), so every call fails before the soft-delete UPDATE; the transcribed
success path is unreachable. -/
def deleteConfig (t : List ConfigRow) (configKey : String)
    (deletedBy : Option String) (now : Nat) : Except String (ConfigRow × List ConfigRow) :=
  match getConfig t configKey with
  | .error e => .error e
  | .ok none => .error "Configuração não encontrada"
  | .ok (some currentConfig) =>
    let t2 := t.map (fun r =>
      if r.config_key == configKey && r.active then { r with active := false } else r)
    match (t.filter (fun r => r.config_key == configKey && r.active)).head? with
    | none => .error "cannot read property of undefined"
    | some r0 =>
      let deleted := { r0 with active := false }
      let t3 := addToHistory t2 deleted.id .DELETE
          (some currentConfig.config_value) none deletedBy now
      .ok (deleted, t3)

end ConfigModel

/-- JS `Map.prototype.get`, on an insertion-ordered association list. -/
def mapGet {α : Type} (m : List (String × α)) (k : String) : Option α :=
  match m.find? (fun p => p.1 == k) with
  | some p => some p.2
  | none => none

/-- JS `Map.prototype.set`: overwriting an existing key keeps its
insertion position; a new key is appended at the end. -/
def mapSet {α : Type} (m : List (String × α)) (k : String) (v : α) :
    List (String × α) :=
  if m.any (fun p => p.1 == k) then
    m.map (fun p => if p.1 == k then (k, v) else p)
  else m ++ [(k, v)]

/-- JS `Map.prototype.delete`. -/
def mapDelete {α : Type} (m : List (String × α)) (k : String) :
    List (String × α) :=
  m.filter (fun p => !(p.1 == k))

/-- Environment-derived service configuration: `CACHE_TTL` (seconds,
default 3600) and `CACHE_MAX_SIZE` (default 1000). -/
structure ServiceConfig where
  cacheTTLsecs : Nat
  cacheMaxSize : Nat

/-- In-process state owned by a `ConfigService` instance: the backing
table (through `this.configModel`), the `cache` and `cacheTTL` Maps, and
the log of events delivered to subscribers by `notifySubscribers` (each
callback invocation is recorded as a key/value pair). -/
structure ServiceState where
  table : List ConfigRow
  cache : List (String × ConfigRow)
  cacheTTL : List (String × Nat)
  notifications : List (String × Option JsVal)

namespace ConfigService

/-- Embedding of `ConfigService.getFromCache`: a present key whose TTL is
still in the future is a hit; a present key with missing or elapsed TTL is
evicted from both maps and reported as a miss. -/
def getFromCache (now : Nat) (s : ServiceState) (key : String) :
    Option ConfigRow × ServiceState :=
  if (mapGet s.cache key).isSome then
    match mapGet s.cacheTTL key with
    | some ttl =>
      if now < ttl then (mapGet s.cache key, s)
      else (none, { s with cache := mapDelete s.cache key,
                           cacheTTL := mapDelete s.cacheTTL key })
    | none => (none, { s with cache := mapDelete s.cache key,
                              cacheTTL := mapDelete s.cacheTTL key })
  else (none, s)

/-- Embedding of `ConfigService.addToCache`: store value and expiry, then
if the cache now exceeds the configured maximum size, evict the first key
in Map iteration order (the oldest-inserted key). -/
def addToCache (cfg : ServiceConfig) (now : Nat) (key : String) (value : ConfigRow)
    (cache : List (String × ConfigRow)) (cacheTTL : List (String × Nat)) :
    List (String × ConfigRow) × List (String × Nat) :=
  let ttl := now + cfg.cacheTTLsecs * 1000
  let cache1 := mapSet cache key value
  let ttl1 := mapSet cacheTTL key ttl
  if cache1.length > cfg.cacheMaxSize then
    match cache1.head? with
    | some firstEntry => (mapDelete cache1 firstEntry.1, mapDelete ttl1 firstEntry.1)
    | none => (cache1, ttl1)
  else (cache1, ttl1)

/-- Embedding of `ConfigService.clearCache`: with a key, drop that key
from both maps; without, clear both maps entirely. -/
def clearCache (key : Option String) (s : ServiceState) : ServiceState :=
  match key with
  | some k => { s with cache := mapDelete s.cache k, cacheTTL := mapDelete s.cacheTTL k }
  | none => { s with cache := [], cacheTTL := [] }

/-- Embedding of `ConfigService.notifySubscribers`: every callback
registered for the key is invoked synchronously with `(key, newValue)`
(individually guarded by try/catch); the delivered event is recorded in
the notification log. -/
def notifySubscribers (key : String) (newValue : Option JsVal) (s : ServiceState) :
    ServiceState :=
  { s with notifications := s.notifications ++ [(key, newValue)] }

/-- Embedding of `ConfigService.getConfig`: try the cache first; on a
miss read the store — which throws whenever a matching row exists (see
`ConfigModel.getConfig`) — and cache a found row before returning it
(that last arm is transcribed from the source but unreachable). -/
def getConfig (cfg : ServiceConfig) (now : Nat) (s : ServiceState)
    (configKey : String) : Except String (Option ConfigRow) × ServiceState :=
  match getFromCache now s configKey with
  | (some cached, s1) => (.ok (some cached), s1)
  | (none, s1) =>
    match ConfigModel.getConfig s1.table configKey with
    | .error e => (.error e, s1)
    | .ok (some config) =>
      let pr := addToCache cfg now configKey config s1.cache s1.cacheTTL
      (.ok (some config), { s1 with cache := pr.1, cacheTTL := pr.2 })
    | .ok none => (.ok none, s1)

/-- Embedding of `ConfigService.getConfigValue`: return the found
config's value, the supplied default when nothing was found, and —
thanks to the surrounding try/catch — the supplied default as well when
the underlying read throws.  The JS default for `defaultValue` is `null`
(`none`). -/
def getConfigValue (cfg : ServiceConfig) (now : Nat) (s : ServiceState)
    (configKey : String) (defaultValue : Option JsVal) :
    Option JsVal × ServiceState :=
  match getConfig cfg now s configKey with
  | (.ok (some config), s1) => (some config.config_value, s1)
  | (.ok none, s1) => (defaultValue, s1)
  | (.error _, s1) => (defaultValue, s1)

/-- Embedding of `ConfigService.createConfig`: validate the value against
the supplied schema (abort on failure, before any write), persist through
the model, clear the cache entry for the new key, notify subscribers with
the new value. -/
def createConfig (now : Nat) (s : ServiceState) (configData : ConfigData) :
    Except String ConfigRow × ServiceState :=
  let validation := validateConfig (some configData.config_value) configData.validation_schema
  if validation.valid = false then (.error "Validação falhou", s)
  else
    match ConfigModel.createConfig s.table configData now with
    | .error e => (.error e, s)
    | .ok (config, t2) =>
      let s1 := clearCache (some config.config_key) { s with table := t2 }
      let s2 := notifySubscribers config.config_key (some config.config_value) s1
      (.ok config, s2)

/-- Embedding of `ConfigService.updateConfig`: read the current config —
which throws for an existing key and reports not-found otherwise, so
every call aborts here with the state untouched — then (in the
transcribed but unreachable remainder) validate against the effective
schema, persist, clear the cache entry, notify subscribers. -/
def updateConfig (now : Nat) (s : ServiceState)
    (configKey : String) (updateData : UpdateData) :
    Except String ConfigRow × ServiceState :=
  match ConfigModel.getConfig s.table configKey with
  | .error e => (.error e, s)
  | .ok none => (.error "Configuração não encontrada", s)
  | .ok (some currentConfig) =>
    let validationSchema :=
      match updateData.validation_schema with
      | some v2 => some v2
      | none => currentConfig.validation_schema
    let validation := validateConfig (some updateData.config_value) validationSchema
    if validation.valid = false then (.error "Validação falhou", s)
    else
      match ConfigModel.updateConfig s.table configKey updateData now with
      | .error e => (.error e, s)
      | .ok (config, t2) =>
        let s1 := clearCache (some configKey) { s with table := t2 }
        let s2 := notifySubscribers configKey (some config.config_value) s1
        (.ok config, s2)

/-- Embedding of `ConfigService.deleteConfig`: soft-delete through the
model — whose initial read always throws or reports not-found, so every
call aborts with the state untouched — then (unreachable) clear the
cache entry and notify subscribers with a null value. -/
def deleteConfig (now : Nat) (s : ServiceState) (configKey : String)
    (deletedBy : Option String) : Except String ConfigRow × ServiceState :=
  match ConfigModel.deleteConfig s.table configKey deletedBy now with
  | .error e => (.error e, s)
  | .ok (config, t2) =>
    let s1 := clearCache (some configKey) { s with table := t2 }
    let s2 := notifySubscribers configKey none s1
    (.ok config, s2)

end ConfigService

/-- A sequence of `addToCache` calls (instant, key, value), starting from
the given cache/TTL maps. -/
def runPuts (cfg : ServiceConfig) :
    List (String × ConfigRow) × List (String × Nat) →
    List (Nat × String × ConfigRow) →
    List (String × ConfigRow) × List (String × Nat)
  | st, [] => st
  | st, (now, k, v) :: rest =>
    runPuts cfg (ConfigService.addToCache cfg now k v st.1 st.2) rest

/-- A concrete row used by the witness theorems. -/
def sampleRow (k : String) : ConfigRow :=
  { id := 1, config_key := k, config_value := JsVal.num 0, config_type := "system",
    config_category := "general", description := none, validation_schema := none,
    version := 1, created_by := some "api", active := true, change_log := [] }

/-- Concrete create payload used by the history-failure witness. -/
def c7d : ConfigData :=
  { config_key := "b", config_value := JsVal.num 2, config_type := "system",
    config_category := "general", description := none, validation_schema := none,
    created_by := none }

/-- Concrete update payload used by the history-failure witness and the
concurrency bug exhibit. -/
def c7u : UpdateData :=
  { config_value := JsVal.num 9, description := none, validation_schema := none,
    updated_by := some "z" }

/-- Concrete create payload used by the versioning bug exhibit. -/
def c3d : ConfigData :=
  { config_key := "cpa_level_amounts", config_value := JsVal.num 50,
    config_type := "cpa", config_category := "commission", description := none,
    validation_schema := none, created_by := some "api" }

/-- Concrete update payload used by the versioning bug exhibit. -/
def c3u : UpdateData :=
  { config_value := JsVal.num 60, description := none, validation_schema := none,
    updated_by := some "api" }

/-! ## Helper lemmas shared by several claims -/

@[simp]
theorem intercalate_dot_nil : String.intercalate "." [] = "" := rfl

@[simp]
theorem intercalate_dot_single (s : String) : String.intercalate "." [s] = s := rfl

/-! ## C9 — validation with no schema -/

/-- C9 counterexample: when no validation schema is supplied,
`validateConfig` does NOT return the input value in the validation result —
it returns the bare object with `valid: true` and no `value` key, so for
the concrete input `5` the result's value is not `5`. -/
theorem C9_counterexample :
    (validateConfig (some (JsVal.num 5)) none).value ≠ some (JsVal.num 5) := by
  simp [validateConfig]

/-- C9 (amended): when validation is invoked with no validation schema
supplied, it trivially succeeds (`valid: true`), but the result carries no
errors and also no value field — the input is not echoed back. -/
theorem C9_no_schema_trivially_valid (configValue : Option JsVal) :
    validateConfig configValue none =
      { valid := true, errors := none, value := none } := rfl

/-! ## C4 — error enumeration -/

/-- C4 counterexample: the schema declares two number properties `a` and
`b`, both with minimum 0, and the value violates both; yet the validation
result contains a single error (for `a`), not one per failing leaf.  The
second conjunct shows that the omitted leaf `b` genuinely fails on its
own.  The cause: the service calls `schema.validate(value)` without
options, and joi's default is `abortEarly: true`. -/
theorem C4_counterexample :
    (validateConfig (some (JsVal.obj [("a", JsVal.num (-1)), ("b", JsVal.num (-1))]))
        (some (ShapeDesc.mk (some "object")
          [("a", ShapeDesc.mk (some "number") [] none none (some 0) none none),
           ("b", ShapeDesc.mk (some "number") [] none none (some 0) none none)]
          none none none none none))).errors =
      some [{ field := "a", message := "must be greater than or equal to the minimum" }]
    ∧ (validateConfig (some (JsVal.obj [("b", JsVal.num (-1))]))
        (some (ShapeDesc.mk (some "object")
          [("b", ShapeDesc.mk (some "number") [] none none (some 0) none none)]
          none none none none none))).valid = false := by
  constructor <;>
    simp [validateConfig, convertToJoiSchema, convertPropsToJoi, convertPropertyToJoi,
      joiFirstError, joiCheckKeys, lookupField, isRequiredSchema, List.find?]

/-- C4 (amended): whenever `validateConfig` reports errors at all, the
errors array has exactly one entry — the first failing leaf encountered
(depth first, in schema declaration order) with its dotted path — rather
than one entry per failing leaf. -/
theorem C4_single_error_reported (configValue : Option JsVal)
    (validationSchema : Option ShapeDesc) (l : List FieldError)
    (h : (validateConfig configValue validationSchema).errors = some l) :
    l.length = 1 := by
  unfold validateConfig at h
  split at h
  · simp at h
  · split at h
    · simp at h
      simp [← h]
    · simp at h

/-- C4 witness: the single-error property instantiated on a concrete
failing validation. -/
theorem C4_witness :
    (validateConfig (some (JsVal.num (-1)))
        (some (ShapeDesc.mk (some "number") [] none none (some 0) none none))).errors =
      some [{ field := "", message := "must be greater than or equal to the minimum" }]
    ∧ ([{ field := "", message := "must be greater than or equal to the minimum" }] :
        List FieldError).length = 1 := by
  refine ⟨?_, ?_⟩
  · simp [validateConfig, convertToJoiSchema, convertPropertyToJoi, joiFirstError]
  · exact C4_single_error_reported (some (JsVal.num (-1)))
      (some (ShapeDesc.mk (some "number") [] none none (some 0) none none))
      [{ field := "", message := "must be greater than or equal to the minimum" }]
      (by simp [validateConfig, convertToJoiSchema, convertPropertyToJoi, joiFirstError])

/-! ## C5 — the `required` list -/

/-- C5 counterexample: for the schema from the claim — an object with a
number property `x` (minimum 0) and `required: ["x"]` — the compiled
validator ACCEPTS the empty object `{}`, instead of rejecting it: the JS
code applies `.required()` to the object schema as a whole instead of
marking the listed properties required, and joi object keys are optional
by default. -/
theorem C5_counterexample :
    (validateConfig (some (JsVal.obj []))
      (some (ShapeDesc.mk (some "object")
        [("x", ShapeDesc.mk (some "number") [] none none (some 0) none none)]
        (some ["x"]) none none none none))).valid = true := by
  simp [validateConfig, convertToJoiSchema, convertPropsToJoi, convertPropertyToJoi,
    joiFirstError, joiCheckKeys, lookupField, isRequiredSchema, List.find?]

/-- C5 (amended): a `required` list on an object shape only marks the
object itself as required, not its listed properties.  For the claim's
schema: the empty object is accepted; a missing (undefined) value is
rejected (the object itself is required); and `(x:-1)` is rejected with
error path `"x"` via the minimum bound. -/
theorem C5_required_marks_object :
    (validateConfig (some (JsVal.obj []))
      (some (ShapeDesc.mk (some "object")
        [("x", ShapeDesc.mk (some "number") [] none none (some 0) none none)]
        (some ["x"]) none none none none))).valid = true
    ∧ (validateConfig none
      (some (ShapeDesc.mk (some "object")
        [("x", ShapeDesc.mk (some "number") [] none none (some 0) none none)]
        (some ["x"]) none none none none))) =
      { valid := false, errors := some [{ field := "", message := "is required" }],
        value := none }
    ∧ (validateConfig (some (JsVal.obj [("x", JsVal.num (-1))]))
      (some (ShapeDesc.mk (some "object")
        [("x", ShapeDesc.mk (some "number") [] none none (some 0) none none)]
        (some ["x"]) none none none none))) =
      { valid := false,
        errors := some [{ field := "x",
                          message := "must be greater than or equal to the minimum" }],
        value := none } := by
  refine ⟨?_, ?_, ?_⟩ <;>
    simp [validateConfig, convertToJoiSchema, convertPropsToJoi, convertPropertyToJoi,
      joiFirstError, joiCheckKeys, lookupField, isRequiredSchema, List.find?]

/-! ## C8 — cache bound and insertion-order eviction -/

theorem mapSet_length {α : Type} (m : List (String × α)) (k : String) (v : α) :
    (mapSet m k v).length =
      if m.any (fun p => p.1 == k) then m.length else m.length + 1 := by
  unfold mapSet
  split <;> simp

theorem mapDelete_head_lt {α : Type} (p : String × α) (rest : List (String × α)) :
    (mapDelete (p :: rest) p.1).length < (p :: rest).length := by
  unfold mapDelete
  simp only [List.filter_cons, beq_self_eq_true, Bool.not_true]
  simp only [Bool.false_eq_true, if_false]
  exact Nat.lt_succ_of_le (List.length_filter_le _ _)

theorem addToCache_length_le (cfg : ServiceConfig) (hmax : 1 ≤ cfg.cacheMaxSize)
    (now : Nat) (k : String) (v : ConfigRow)
    (cache : List (String × ConfigRow)) (cacheTTL : List (String × Nat))
    (hlen : cache.length ≤ cfg.cacheMaxSize) :
    (ConfigService.addToCache cfg now k v cache cacheTTL).1.length ≤ cfg.cacheMaxSize := by
  have hc1 : (mapSet cache k v).length ≤ cache.length + 1 := by
    rw [mapSet_length]; split <;> omega
  unfold ConfigService.addToCache
  simp only []
  split
  · next hgt =>
    split
    next fe heq =>
      simp only []
      cases hm : mapSet cache k v with
      | nil => rw [hm] at heq; simp at heq
      | cons a rest =>
        rw [hm] at heq
        simp only [List.head?_cons, Option.some.injEq] at heq
        subst heq
        have hlt := mapDelete_head_lt a rest
        rw [hm] at hc1
        omega
    next heq =>
      rw [List.head?_eq_none_iff] at heq
      simp only [heq, List.length_nil]
      omega
  · next hnotgt => simp only []; omega

theorem runPuts_length_le (cfg : ServiceConfig) (hmax : 1 ≤ cfg.cacheMaxSize) :
    ∀ (puts : List (Nat × String × ConfigRow))
      (st : List (String × ConfigRow) × List (String × Nat)),
      st.1.length ≤ cfg.cacheMaxSize →
      (runPuts cfg st puts).1.length ≤ cfg.cacheMaxSize := by
  intro puts
  induction puts with
  | nil => intro st h; exact h
  | cons p rest ih =>
    intro st h
    obtain ⟨now, k, v⟩ := p
    exact ih _ (addToCache_length_le cfg hmax now k v st.1 st.2 h)

theorem addToCache_evicts_oldest (cfg : ServiceConfig)
    (now : Nat) (k : String) (v : ConfigRow)
    (cache : List (String × ConfigRow)) (cacheTTL : List (String × Nat))
    (hnd : (cache.map Prod.fst).Nodup)
    (hfresh : cache.any (fun p => p.1 == k) = false)
    (hlen : cache.length = cfg.cacheMaxSize) (hmax : 1 ≤ cfg.cacheMaxSize) :
    (ConfigService.addToCache cfg now k v cache cacheTTL).1 = cache.tail ++ [(k, v)] := by
  obtain ⟨p, rest, rfl⟩ : ∃ p rest, cache = p :: rest := by
    cases cache with
    | nil => simp at hlen; omega
    | cons p rest => exact ⟨p, rest, rfl⟩
  have hset : mapSet (p :: rest) k v = (p :: rest) ++ [(k, v)] := by
    simp [mapSet, hfresh]
  have hkeys : ∀ q ∈ p :: rest, ¬(q.1 = k) := by
    intro q hq hqk
    have hany : (p :: rest).any (fun r => r.1 == k) = true :=
      List.any_eq_true.mpr ⟨q, hq, by simp [hqk]⟩
    rw [hfresh] at hany
    exact Bool.false_ne_true hany
  have hpk : ¬(p.1 = k) := hkeys p (by simp)
  have hrestkeys : ∀ q ∈ rest, ¬(q.1 = p.1) := by
    intro q hq hqp
    simp only [List.map_cons, List.nodup_cons] at hnd
    exact hnd.1 (hqp ▸ List.mem_map_of_mem Prod.fst hq)
  have hlen2 : rest.length + 1 = cfg.cacheMaxSize := by simpa using hlen
  unfold ConfigService.addToCache
  simp only [hset]
  rw [if_pos (by simp; omega)]
  simp only [List.cons_append, List.head?_cons]
  unfold mapDelete
  simp only [List.filter_cons, beq_self_eq_true, Bool.not_true, Bool.false_eq_true, if_false]
  rw [List.filter_append]
  rw [List.filter_eq_self.mpr, List.filter_eq_self.mpr]
  · simp
  · intro q hq
    simp at hq
    simp [hq, hpk]
    intro h
    exact absurd h.symm hpk
  · intro q hq
    simp only [Bool.not_eq_eq_eq_not, Bool.not_true, beq_eq_false_iff_ne, ne_eq]
    exact hrestkeys q hq

/-- C8: after any `addToCache` call the cache holds at most the configured
maximum number of entries — both as a preserved invariant of a single put
and along any sequence of puts from an empty cache — and when a put pushes
the cache past the maximum, exactly one entry, the oldest-inserted one
(the first key in Map iteration order), is evicted, the new entry being
appended at the end. -/
theorem C8_cache_bound_and_oldest_eviction (cfg : ServiceConfig)
    (hmax : 1 ≤ cfg.cacheMaxSize) :
    (∀ now k v cache cacheTTL, cache.length ≤ cfg.cacheMaxSize →
        (ConfigService.addToCache cfg now k v cache cacheTTL).1.length ≤ cfg.cacheMaxSize)
    ∧ (∀ puts, (runPuts cfg ([], []) puts).1.length ≤ cfg.cacheMaxSize)
    ∧ (∀ now k v cache cacheTTL, (cache.map Prod.fst).Nodup →
        cache.any (fun p => p.1 == k) = false →
        cache.length = cfg.cacheMaxSize →
        (ConfigService.addToCache cfg now k v cache cacheTTL).1 =
          cache.tail ++ [(k, v)]) := by
  refine ⟨?_, ?_, ?_⟩
  · intro now k v cache cacheTTL h
    exact addToCache_length_le cfg hmax now k v cache cacheTTL h
  · intro puts
    exact runPuts_length_le cfg hmax puts ([], []) (by simp)
  · intro now k v cache cacheTTL hnd hfresh hlen
    exact addToCache_evicts_oldest cfg now k v cache cacheTTL hnd hfresh hlen hmax

/-- C8 witness: with max size 2 and a full cache holding keys `a`, `b` (in
insertion order), putting key `c` evicts exactly `a`. -/
theorem C8_witness :
    1 ≤ ({ cacheTTLsecs := 3600, cacheMaxSize := 2 } : ServiceConfig).cacheMaxSize
    ∧ (ConfigService.addToCache { cacheTTLsecs := 3600, cacheMaxSize := 2 } 5 "c"
        (sampleRow "c") [("a", sampleRow "a"), ("b", sampleRow "b")] []).1 =
      ([("a", sampleRow "a"), ("b", sampleRow "b")] :
        List (String × ConfigRow)).tail ++ [("c", sampleRow "c")] :=
  ⟨by decide,
   (C8_cache_bound_and_oldest_eviction { cacheTTLsecs := 3600, cacheMaxSize := 2 }
      (by decide)).2.2 5 "c" (sampleRow "c")
      [("a", sampleRow "a"), ("b", sampleRow "b")] [] (by decide) (by decide) (by decide)⟩

/-! ## Consequences of the double JSON.parse in the model layer -/

/-- The history append never changes the table (the JSON.parse inside it
always throws and is swallowed, or the UPDATE matches zero rows). -/
theorem addToHistory_eq (t : List ConfigRow) (configId : Nat) (action : ChangeAction)
    (oldValue newValue : Option JsVal) (changedBy : Option String) (now : Nat) :
    ConfigModel.addToHistory t configId action oldValue newValue changedBy now = t := by
  unfold ConfigModel.addToHistory
  cases t.find? (fun r => r.id == configId) <;> rfl

/-- `ConfigModel.getConfig` never returns a row: a found row makes the
JSON.parse steps throw, and otherwise the result is null. -/
theorem getConfig_never_some (t : List ConfigRow) (k : String) (r : ConfigRow) :
    ConfigModel.getConfig t k ≠ .ok (some r) := by
  unfold ConfigModel.getConfig
  cases ConfigModel.selectConfig t k <;> simp

/-- Every `ConfigModel.updateConfig` call fails: its initial read throws
for an existing row and reports not-found otherwise, always before the
UPDATE statement. -/
theorem updateConfig_always_fails (t : List ConfigRow) (k : String) (u : UpdateData)
    (now : Nat) : ∃ e, ConfigModel.updateConfig t k u now = .error e := by
  cases hg : ConfigModel.getConfig t k with
  | error e => exact ⟨e, by unfold ConfigModel.updateConfig; rw [hg]⟩
  | ok oc =>
    cases oc with
    | none =>
      exact ⟨"Configuração não encontrada", by unfold ConfigModel.updateConfig; rw [hg]⟩
    | some r => exact absurd hg (getConfig_never_some t k r)

/-- Every `ConfigModel.deleteConfig` call fails, for the same reason. -/
theorem deleteConfig_always_fails (t : List ConfigRow) (k : String)
    (deletedBy : Option String) (now : Nat) :
    ∃ e, ConfigModel.deleteConfig t k deletedBy now = .error e := by
  cases hg : ConfigModel.getConfig t k with
  | error e => exact ⟨e, by unfold ConfigModel.deleteConfig; rw [hg]⟩
  | ok oc =>
    cases oc with
    | none =>
      exact ⟨"Configuração não encontrada", by unfold ConfigModel.deleteConfig; rw [hg]⟩
    | some r => exact absurd hg (getConfig_never_some t k r)

/-! ## C6 — validation failure aborts before any effect -/

/-- C6: a create whose value fails schema validation aborts with an error
before any persistence write, cache change or subscriber notification:
the resulting service state is exactly the prior state.  For update the
guarantee holds a fortiori: EVERY update call returns with the state
exactly unchanged, because the call aborts no later than its initial read
(which throws for an existing key and reports not-found otherwise) — so
in particular no update whose value fails validation ever makes a partial
state change observable. -/
theorem C6_validation_failure_aborts (now : Nat) (s : ServiceState)
    (configData : ConfigData) (configKey : String) (updateData : UpdateData) :
    ((validateConfig (some configData.config_value) configData.validation_schema).valid = false →
      ConfigService.createConfig now s configData = (.error "Validação falhou", s))
    ∧ ∃ e, ConfigService.updateConfig now s configKey updateData = (.error e, s) := by
  constructor
  · intro h
    simp [ConfigService.createConfig, h]
  · cases hg : ConfigModel.getConfig s.table configKey with
    | error e => exact ⟨e, by unfold ConfigService.updateConfig; rw [hg]⟩
    | ok oc =>
      cases oc with
      | none =>
        exact ⟨"Configuração não encontrada", by
          unfold ConfigService.updateConfig; rw [hg]⟩
      | some r => exact absurd hg (getConfig_never_some s.table configKey r)

/-- C6 witness: a value `-1` against a number schema with minimum 0 fails
validation and the create call leaves the concrete service state
untouched; the update call on the same state aborts with it untouched as
well. -/
theorem C6_witness :
    (validateConfig (some (JsVal.num (-1)))
      (some (ShapeDesc.mk (some "number") [] none none (some 0) none none))).valid = false
    ∧ ConfigService.createConfig 0
        { table := [sampleRow "k"], cache := [], cacheTTL := [], notifications := [] }
        { config_key := "n", config_value := JsVal.num (-1), config_type := "system",
          config_category := "general", description := none,
          validation_schema := some (ShapeDesc.mk (some "number") [] none none (some 0) none none),
          created_by := none } =
      (.error "Validação falhou",
       { table := [sampleRow "k"], cache := [], cacheTTL := [], notifications := [] })
    ∧ ∃ e, ConfigService.updateConfig 0
        { table := [sampleRow "k"], cache := [], cacheTTL := [], notifications := [] }
        "k"
        { config_value := JsVal.num (-1),
          description := none,
          validation_schema := some (ShapeDesc.mk (some "number") [] none none (some 0) none none),
          updated_by := none } =
      (.error e,
       { table := [sampleRow "k"], cache := [], cacheTTL := [], notifications := [] }) := by
  have hv : (validateConfig (some (JsVal.num (-1)))
      (some (ShapeDesc.mk (some "number") [] none none (some 0) none none))).valid = false := by
    simp [validateConfig, convertToJoiSchema, convertPropertyToJoi, joiFirstError]
  refine ⟨hv, ?_, ?_⟩
  · exact (C6_validation_failure_aborts 0
      { table := [sampleRow "k"], cache := [], cacheTTL := [], notifications := [] }
      { config_key := "n", config_value := JsVal.num (-1), config_type := "system",
        config_category := "general", description := none,
        validation_schema := some (ShapeDesc.mk (some "number") [] none none (some 0) none none),
        created_by := none } "k"
      { config_value := JsVal.num (-1), description := none,
        validation_schema := some (ShapeDesc.mk (some "number") [] none none (some 0) none none),
        updated_by := none }).1 hv
  · exact (C6_validation_failure_aborts 0
      { table := [sampleRow "k"], cache := [], cacheTTL := [], notifications := [] }
      { config_key := "n", config_value := JsVal.num (-1), config_type := "system",
        config_category := "general", description := none,
        validation_schema := some (ShapeDesc.mk (some "number") [] none none (some 0) none none),
        created_by := none } "k"
      { config_value := JsVal.num (-1), description := none,
        validation_schema := some (ShapeDesc.mk (some "number") [] none none (some 0) none none),
        updated_by := none }).2

/-! ## C10 — getConfigValue falls back to the default -/

/-- C10: when the read actually reaches the store (no fresh cache hit for
the key), `getConfigValue` returns the supplied default in both store
outcomes the claim names: when the store read throws — which is what
happens exactly when an active row exists, since `ConfigModel.getConfig`
throws at its JSON.parse steps on every found row, and the surrounding
try/catch swallows the error — and when no active entry exists.  By
construction the function returns a plain value, never an error. -/
theorem C10_getConfigValue_defaults (cfg : ServiceConfig) (now : Nat) (s : ServiceState)
    (configKey : String) (defaultValue : Option JsVal)
    (hmiss : (ConfigService.getFromCache now s configKey).1 = none) :
    ((ConfigModel.selectConfig s.table configKey).isSome = true →
        (ConfigService.getConfigValue cfg now s configKey defaultValue).1 = defaultValue)
    ∧ (ConfigModel.selectConfig s.table configKey = none →
        (ConfigService.getConfigValue cfg now s configKey defaultValue).1 =
          defaultValue) := by
  cases hgc : ConfigService.getFromCache now s configKey with
  | mk fst snd =>
    rw [hgc] at hmiss
    simp only [] at hmiss
    subst hmiss
    have hsnd : snd.table = s.table := by
      unfold ConfigService.getFromCache at hgc
      split at hgc
      · split at hgc
        · split at hgc
          · simp_all
          · cases hgc; rfl
        · cases hgc; rfl
      · cases hgc; rfl
    constructor
    · intro hsome
      obtain ⟨r, hr⟩ := Option.isSome_iff_exists.mp hsome
      simp [ConfigService.getConfigValue, ConfigService.getConfig, hgc,
        ConfigModel.getConfig, hsnd, hr]
    · intro hnone
      simp [ConfigService.getConfigValue, ConfigService.getConfig, hgc,
        ConfigModel.getConfig, hsnd, hnone]

/-- C10 witness: on a one-row table holding key `k` with an empty cache,
reading `k` makes the store read throw and yields the default `7`;
reading the absent key `x` yields the default `7` as well. -/
theorem C10_witness :
    ((ConfigService.getFromCache 0
        { table := [sampleRow "k"], cache := [], cacheTTL := [], notifications := [] }
        "k").1 = none
      ∧ (ConfigModel.selectConfig
          ({ table := [sampleRow "k"], cache := [], cacheTTL := [],
             notifications := [] } : ServiceState).table "k").isSome = true
      ∧ (ConfigService.getConfigValue { cacheTTLsecs := 3600, cacheMaxSize := 1000 } 0
          { table := [sampleRow "k"], cache := [], cacheTTL := [], notifications := [] }
          "k" (some (JsVal.num 7))).1 = some (JsVal.num 7))
    ∧ ((ConfigService.getFromCache 0
        { table := [sampleRow "k"], cache := [], cacheTTL := [], notifications := [] }
        "x").1 = none
      ∧ ConfigModel.selectConfig
          ({ table := [sampleRow "k"], cache := [], cacheTTL := [],
             notifications := [] } : ServiceState).table "x" = none
      ∧ (ConfigService.getConfigValue { cacheTTLsecs := 3600, cacheMaxSize := 1000 } 0
          { table := [sampleRow "k"], cache := [], cacheTTL := [], notifications := [] }
          "x" (some (JsVal.num 7))).1 = some (JsVal.num 7)) :=
  ⟨⟨rfl, rfl,
    (C10_getConfigValue_defaults { cacheTTLsecs := 3600, cacheMaxSize := 1000 } 0
      { table := [sampleRow "k"], cache := [], cacheTTL := [], notifications := [] }
      "k" (some (JsVal.num 7)) rfl).1 rfl⟩,
   ⟨rfl, rfl,
    (C10_getConfigValue_defaults { cacheTTLsecs := 3600, cacheMaxSize := 1000 } 0
      { table := [sampleRow "k"], cache := [], cacheTTL := [], notifications := [] }
      "x" (some (JsVal.num 7)) rfl).2 rfl⟩⟩

/-! ## C7 — history-append failures are swallowed -/

/-- C7: the only mutation that ever reaches the history append is create,
and there the append failure — which in fact happens on every create,
since `addToHistory` throws at JSON.parse of the pg-parsed change_log and
its catch swallows the error — neither rolls back nor fails the primary
mutation: the INSERT stands (create runs outside any transaction, and
the failure is client-side JS, which cannot abort a server transaction
anyway), the call returns the inserted entry, and only the persisted
history is left empty.  Update and delete never reach the append: they
throw at their initial read, before any write, so no history-append
failure can ever roll back or fail them — their conjuncts show that
every such call returns an error with the table untouched. -/
theorem C7_history_failure_non_fatal (t : List ConfigRow) (d : ConfigData)
    (k : String) (u : UpdateData) (actor : Option String) (now : Nat)
    (hfresh : ∀ r ∈ t, ¬ r.config_key = d.config_key) :
    (∃ row, ConfigModel.createConfig t d now = .ok (row, t ++ [row])
        ∧ row.version = 1 ∧ row.config_value = d.config_value ∧ row.change_log = [])
    ∧ (∃ e, ConfigModel.updateConfig t k u now = .error e)
    ∧ (∃ e, ConfigModel.deleteConfig t k actor now = .error e) := by
  refine ⟨?_, updateConfig_always_fails t k u now, deleteConfig_always_fails t k actor now⟩
  have hany : t.any (fun r => r.config_key == d.config_key) = false := by
    rw [List.any_eq_false]
    intro r hr
    simpa using hfresh r hr
  refine ⟨{ id := ConfigModel.nextId t, config_key := d.config_key,
            config_value := d.config_value, config_type := d.config_type,
            config_category := d.config_category, description := d.description,
            validation_schema := d.validation_schema, version := 1,
            created_by := d.created_by, active := true, change_log := [] },
    ?_, rfl, rfl, rfl⟩
  unfold ConfigModel.createConfig
  rw [if_neg (by simp [hany])]
  simp only [addToHistory_eq]

/-- C7 witness: the guarantees instantiated on a one-row table holding
key `a`, with a create of fresh key `b`, an update and a delete of `a`. -/
theorem C7_witness :
    (∀ r ∈ [sampleRow "a"], ¬ r.config_key = c7d.config_key)
    ∧ ((∃ row, ConfigModel.createConfig [sampleRow "a"] c7d 7 =
          .ok (row, [sampleRow "a"] ++ [row])
        ∧ row.version = 1 ∧ row.config_value = c7d.config_value ∧ row.change_log = [])
      ∧ (∃ e, ConfigModel.updateConfig [sampleRow "a"] "a" c7u 7 = .error e)
      ∧ (∃ e, ConfigModel.deleteConfig [sampleRow "a"] "a" (some "w") 7 = .error e)) :=
  ⟨by decide,
   C7_history_failure_non_fatal [sampleRow "a"] c7d "a" c7u (some "w") 7 (by decide)⟩

/-! ## C2 — cache coherence after mutations (bug exhibit) -/

/-- C2 bug exhibit: the one mutation that can complete — a create — does
invalidate the cache synchronously, but the get that follows it does NOT
repopulate from the store: it throws, because `ConfigModel.getConfig`
fails at its JSON.parse steps for every existing row.  Update and delete
mutations never complete at all (they throw at their initial read, as the
last two conjuncts show).  Evaluated on a concrete run: create key `kc`
(succeeds, `kc` absent from the cache afterwards), then get `kc` — a
SyntaxError instead of the stored value the claim promises. -/
theorem C2_post_mutation_get_throws :
    ∃ row s1, ConfigService.createConfig 5
        { table := [], cache := [], cacheTTL := [], notifications := [] }
        { config_key := "kc", config_value := JsVal.num 1, config_type := "system",
          config_category := "general", description := none, validation_schema := none,
          created_by := none } = (.ok row, s1)
      ∧ mapGet s1.cache "kc" = none
      ∧ (ConfigService.getConfig { cacheTTLsecs := 3600, cacheMaxSize := 1000 } 6
           s1 "kc").1 =
          .error "SyntaxError: JSON.parse applied to a pg-parsed jsonb value"
      ∧ (∃ e, ConfigService.updateConfig 7 s1 "kc"
            { config_value := JsVal.num 2, description := none,
              validation_schema := none, updated_by := none } = (.error e, s1))
      ∧ (∃ e, ConfigService.deleteConfig 7 s1 "kc" none = (.error e, s1)) :=
  ⟨_, _, rfl, rfl, rfl, ⟨_, rfl⟩, ⟨_, rfl⟩⟩

/-! ## C3 — versioning and history (bug exhibit) -/

/-- C3 bug exhibit: a valid create does store the entry at version 1, but
the stored change history remains [] instead of the single CREATE event —
`addToHistory` always throws at `JSON.parse(rows[0].change_log)` (node-pg
has already parsed the jsonb array) and swallows the error, writing
nothing.  And no update ever succeeds, because `updateConfig` throws at
its initial `getConfig` read, so the claimed version/history evolution
under N successful updates never happens.  Concretely: create
`cpa_level_amounts` on an empty store, then attempt one update. -/
theorem C3_create_history_empty_updates_fail :
    ∃ row t1, ConfigModel.createConfig [] c3d 3 = .ok (row, t1)
      ∧ row.version = 1
      ∧ ConfigModel.selectConfig t1 c3d.config_key = some row
      ∧ row.change_log = []
      ∧ ∃ e, ConfigModel.updateConfig t1 c3d.config_key c3u 9 = .error e :=
  ⟨_, _, rfl, rfl, rfl, rfl, ⟨_, rfl⟩⟩

/-! ## C1 — concurrent updates (bug exhibit) -/

/-- C1 bug exhibit: no `updateConfig` call can ever succeed — each one
throws at its initial `getConfig` read (a SyntaxError when the key's row
exists, not-found otherwise), before reaching the atomic
`UPDATE ... SET version = version + 1` statement.  Hence no execution
exists in which N concurrent updates against one key "all succeed": N
concurrent attempts against an existing key produce 0 version increments
and N errors, not N increments.  Shown on a concrete call against an
existing key, and in general for every table, key and payload. -/
theorem C1_no_update_can_succeed :
    (∃ e, ConfigModel.updateConfig [sampleRow "k"] "k" c7u 5 = .error e)
    ∧ ∀ (t : List ConfigRow) (k : String) (u : UpdateData) (now : Nat),
        ∃ e, ConfigModel.updateConfig t k u now = .error e :=
  ⟨⟨_, rfl⟩, fun t k u now => updateConfig_always_fails t k u now⟩
